import Mathlib

/-!
Shallow embedding of the two source files of the `custom_robocasa`
repository fragment:

* `robocasa/scripts/dataset_states_to_obs.py` — trajectory re-extractor:
  work dispatcher (`retrieve_new_index`), worker
  (`extract_multiple_trajectories[_with_error]`, `extract_trajectory`),
  writer (`write_traj_to_file`) and the driver
  (`dataset_states_to_obs_multiprocessing`).
* `robocasa/utils/model_zoo/mjcf_obj.py` — MJCF asset loader
  (`postprocess_model_xml`, `MJCFObject.__init__`).

External collaborators (the simulation environment, HDF5, numpy numeric
kernels) are abstracted as oracle parameters; all control flow, queue and
attribute manipulation is translated directly from the Python source.
Concurrency is modelled sequentially: every queue/array operation of a
worker happens under the dispatcher lock or is an atomic queue operation,
and the claims under study are about a single worker's loop.
-/

/-! ### Dispatcher and worker state (`dataset_states_to_obs.py`) -/

/-- State a worker process shares with the dispatcher and its own local
loop state: the `multiprocessing.Queue` of pending demo indices (FIFO,
head = next `get`), the shared `current_work_array` of per-process
assignments (initialised to `0` by `multiprocessing.Array("i", n)`), the
persisted output queue (`mul_queue`) contents as the list of indices whose
records were enqueued, the number of simulation environments created so
far by this worker (`envGen`), the worker's local variable `ind`, a ghost
trace `attempts` of the index attempted by each loop iteration, and a
ghost serial counter `tick` numbering the per-trajectory attempts. -/
structure WorkerSt where
  workQueue : List Int
  assign : List Int
  outQueue : List Int
  envGen : Nat
  ind : Int
  attempts : List Int
  tick : Nat
deriving DecidableEq, Repr

/-- `retrieve_new_index(process_num, current_work_array, work_queue, lock)`:
under the lock, return `-1` if the work queue is empty; otherwise pop one
index with `work_queue.get(False)`, record it in
`current_work_array[process_num]` and return it.  (In the sequential model
the inner `except queue.Empty` branch is unreachable once the `empty()`
check has passed, so both failure paths collapse into the first match
arm.) -/
def retrieve_new_index (process_num : Nat) (s : WorkerSt) : Int × WorkerSt :=
  match s.workQueue with
  | [] => (-1, s)
  | i :: rest =>
      (i, { s with workQueue := rest, assign := s.assign.set process_num i })

/-- Iterate `retrieve_new_index` `k` times (a sequence of claims with no
other queue activity), collecting the returned values. -/
def claimsRun (process_num : Nat) : Nat → WorkerSt → List Int × WorkerSt
  | 0, s => ([], s)
  | k + 1, s =>
      ((retrieve_new_index process_num s).1 ::
         (claimsRun process_num k (retrieve_new_index process_num s).2).1,
       (claimsRun process_num k (retrieve_new_index process_num s).2).2)

/-- One iteration of the `while (not work_queue.empty()) and (ind != -1)`
loop in `extract_multiple_trajectories_with_error`.  `none` means the loop
guard failed and the loop exits.  `fails t` tells whether the `t`-th
per-trajectory attempt of this worker raises an exception somewhere inside
the `try` block (trajectory extraction is delegated to the opaque
simulator).  On an exception the worker prints, deletes its environment
and recreates it (`envGen + 1`) — `ind` is left unchanged, so the next
iteration re-attempts the same index.  On success the completed record is
put on the output queue and a new index is claimed before the next
iteration. -/
def workerStep (process_num : Nat) (fails : Nat → Bool) (s : WorkerSt) :
    Option WorkerSt :=
  if s.workQueue = [] ∨ s.ind = -1 then none
  else
    let s1 := { s with attempts := s.attempts ++ [s.ind], tick := s.tick + 1 }
    if fails s.tick then
      some { s1 with envGen := s1.envGen + 1 }
    else
      let s2 := { s1 with outQueue := s1.outQueue ++ [s1.ind] }
      let r := retrieve_new_index process_num s2
      some { r.2 with ind := r.1 }

/-- Run the worker loop for at most `fuel` iterations (the loop itself has
no termination guarantee: a persistently failing attempt is retried as
long as the guard holds). -/
def workerLoop (process_num : Nat) (fails : Nat → Bool) :
    Nat → WorkerSt → WorkerSt
  | 0, s => s
  | fuel + 1, s =>
      match workerStep process_num fails s with
      | none => s
      | some s' => workerLoop process_num fails fuel s'

/-- `extract_multiple_trajectories_with_error`, queue-control skeleton
(environment creation, HDF5 reads and the demo list are abstracted): claim
a first index with `retrieve_new_index`, then run the while loop. -/
def extract_multiple_trajectories_with_error (process_num : Nat)
    (fails : Nat → Bool) (fuel : Nat) (s : WorkerSt) : WorkerSt :=
  let r := retrieve_new_index process_num s
  workerLoop process_num fails fuel { r.2 with ind := r.1 }

/-- `extract_multiple_trajectories`: run the inner extractor inside a
`try`; if an exception escapes it (`inner = .error s` carries the shared
state at raise time), execute `work_queue.put(current_work_array[process_num])`
— one `put`, appending at the tail of the FIFO queue — print the error and
return (the worker exits). -/
def extract_multiple_trajectories (process_num : Nat)
    (inner : Except WorkerSt WorkerSt) : WorkerSt :=
  match inner with
  | .ok s => s
  | .error s =>
      { s with workQueue := s.workQueue ++ [s.assign.getD process_num 0] }

/-! ### Writer (`write_traj_to_file`) -/

/-- One record handed to the writer: `item = [ep, traj, process_num]`;
only the episode key and the number of transitions
(`traj["actions"].shape[0]`) matter for the drain loop. -/
structure WRec where
  ep : String
  numSamples : Nat
deriving DecidableEq, Repr

/-- Result of the writer's drain loop.  `blocked` models
`mul_queue.get()` waiting forever once the queue has been drained while
the loop condition still holds. -/
inductive WriterPhase
  | blocked (groups : List String) (numProcessed total_samples : Nat)
  | finished (groups : List String) (total_samples : Nat)
deriving DecidableEq, Repr

/-- The `while num_processed < total_samples` drain loop of
`write_traj_to_file`, faithful to the source: `total_samples` starts as
the expected record count passed by the caller, but the loop body also
executes `total_samples += traj["actions"].shape[0]` after writing each
episode group.  The first argument is the sequence of records that will
ever arrive on the output queue. -/
def writerLoop : List WRec → Nat → Nat → List String → WriterPhase
  | [], numProcessed, total_samples, groups =>
      if numProcessed < total_samples then
        .blocked groups numProcessed total_samples
      else .finished groups total_samples
  | r :: rest, numProcessed, total_samples, groups =>
      if numProcessed < total_samples then
        writerLoop rest (numProcessed + 1) (total_samples + r.numSamples)
          (groups ++ [r.ep])
      else .finished groups total_samples

/-- The fixed list of sizes for which `write_traj_to_file` calls
`DatasetUtils.filter_dataset_size` after closing the output file. -/
def filter_sizes : List Nat :=
  [10, 20, 30, 40, 50, 60, 70, 75, 80, 90, 100, 125, 150, 200, 250, 300,
   400, 500, 600, 700, 800, 900, 1000, 1500, 2000, 2500, 3000, 4000, 5000,
   10000]

/-- Observable outcome of `write_traj_to_file`: the episode groups created
in arrival order, the final `data` attribute `total` (when reached), the
"mask" copy, the sizes passed to `filter_dataset_size`, and whether the
writer is still blocked inside the drain loop. -/
structure WriterOut where
  groups : List String
  totalAttr : Option Nat
  maskCopied : Bool
  filterCalls : List Nat
  hangs : Bool
deriving DecidableEq, Repr

/-- `write_traj_to_file(args, output_path, total_samples, mul_queue)`:
drain the queue, then (only when the loop exits) copy the "mask" group
when the source file has one, write the `total` attribute, and call
`filter_dataset_size` once per size in `filter_sizes`. -/
def write_traj_to_file (total_samples : Nat) (queue : List WRec)
    (maskInSrc : Bool) : WriterOut :=
  match writerLoop queue 0 total_samples [] with
  | .blocked gs _ _ =>
      { groups := gs, totalAttr := none, maskCopied := false,
        filterCalls := [], hangs := true }
  | .finished gs ts =>
      { groups := gs, totalAttr := some ts, maskCopied := maskInSrc,
        filterCalls := filter_sizes, hangs := false }

/-! ### Trajectory extraction (`extract_trajectory`) -/

/-- Does `a` lead `b` (Python startswith on char lists)? -/
def listLeads : List Char → List Char → Bool
  | [], _ => true
  | _ :: _, [] => false
  | a :: as, b :: bs => a = b && listLeads as bs

/-- Does `n` occur as a contiguous sublist of the second argument? -/
def listHasSub (n : List Char) : List Char → Bool
  | [] => n.isEmpty
  | c :: cs => listLeads n (c :: cs) || listHasSub n cs

/-- Python's `needle in hay` substring test on strings. -/
def strHasSub (needle hay : String) : Bool := listHasSub needle.data hay.data

/-- The CLI flags of `dataset_states_to_obs.py` that `extract_trajectory`
reads. -/
structure ExtractArgs where
  global_actions : Bool
  dont_store_image : Bool
  dont_store_depth : Bool
deriving DecidableEq, Repr

/-- The `traj_len = 20  #states.shape[0]` line of the source: the loop
bound is hardcoded to 20, the commented-out expression being the number of
recorded states. -/
def traj_len : Nat := 20

/-- The key-removal test of the per-step observation filter: a key is
dropped when `args.dont_store_image` and `"image" in obs_key`, or
`args.dont_store_depth` and `"depth" in obs_key`. -/
def obsKeyRemoved (args : ExtractArgs) (k : String) : Bool :=
  (args.dont_store_image && strHasSub "image" k) ||
  (args.dont_store_depth && strHasSub "depth" k)

/-- Delete the flagged keys from one step's observation dictionary
(sensor values abstracted as rationals). -/
def filterObs (args : ExtractArgs) (d : List (String × ℚ)) :
    List (String × ℚ) :=
  d.filter (fun kv => !(obsKeyRemoved args kv.1))

/-- First-appearance-ordered deduplication of a key list. -/
def dedupKeys : List String → List String
  | [] => []
  | k :: ks => k :: (dedupKeys ks).filter (fun x => x ≠ k)

/-- Modelled from the spec: `TensorUtils.list_of_flat_dict_to_dict_of_list`
(a robomimic tensor utility of this repository that is not under `src/`).
It turns a list of per-step flat dictionaries into one dictionary mapping
each key, in order of first appearance, to the list of that key's values
across the steps that carry it. -/
def dictOfLists (ds : List (List (String × ℚ))) : List (String × List ℚ) :=
  (dedupKeys ((ds.map (fun d => d.map Prod.fst)).flatten)).map
    (fun k => (k, ds.filterMap (fun d => d.lookup k)))

/-- The `done` signal collected at step `t`: start from `False`; in modes
1 and 2 or it with `t == traj_len`; in modes 0 and 2 or it with the
success check of the environment after loading `states[t]`; convert to
`int`. -/
def doneAt (done_mode : Nat) (success : Nat → Bool) (t : Nat) : Nat :=
  let d0 := false
  let d1 := if done_mode = 1 ∨ done_mode = 2 then d0 || decide (t = traj_len)
            else d0
  let d2 := if done_mode = 0 ∨ done_mode = 2 then d1 || success t else d1
  if d2 then 1 else 0

/-- The trajectory dictionary `extract_trajectory` returns, after the
list-to-array conversions (only the parts the writer reads). -/
structure Traj where
  obs : List (String × List ℚ)
  rewards : List ℚ
  dones : List Nat
  actions : List (List ℚ)
  global_actions : Option (List (List ℚ))
  states : List (List ℚ)
  model_file : String
  ep_meta : String
deriving DecidableEq, Repr

/-- `extract_trajectory(env, initial_state, states, actions, done_mode,
args)`.  Environment responses after `env.reset_to({"states": states[t]})`
are the oracles `reward t`, `success t` and `obsAt t`; the numeric
global-action rewrite (einsum/quaternion kernels living outside `src/`)
is abstracted as the per-row function `rowTf`, which keeps the row count
of `actions` unchanged exactly as the numpy column assignments do.  The
run fails like the Python (`AssertionError` when the state and action
counts differ, `IndexError` at `states[t]` when the hardcoded
`traj_len = 20` loop outruns the recorded states). -/
def extract_trajectory (args : ExtractArgs) (model_file ep_meta : String)
    (states actions : List (List ℚ)) (reward : Nat → ℚ)
    (success : Nat → Bool) (obsAt : Nat → List (String × ℚ))
    (rowTf : List ℚ → List ℚ) (done_mode : Nat) : Except String Traj :=
  if states.length = actions.length then
    if traj_len ≤ states.length then
      Except.ok
        { obs := dictOfLists
            ((List.range traj_len).map (fun t => filterObs args (obsAt t))),
          rewards := (List.range traj_len).map reward,
          dones := (List.range traj_len).map (doneAt done_mode success),
          actions := actions,
          global_actions :=
            if args.global_actions then some (actions.map rowTf) else none,
          states := states,
          model_file := model_file, ep_meta := ep_meta }
    else Except.error "IndexError"
  else Except.error "AssertionError"

/-- The per-episode HDF5 datasets and attributes `write_traj_to_file`
creates for one record, reduced to their entry counts: `actions`,
`states`, `rewards`, `dones`, one `obs/<k>` dataset per observation key,
and the `num_samples` attribute (`traj["actions"].shape[0]`). -/
structure EpGroup where
  actions_len : Nat
  states_len : Nat
  rewards_len : Nat
  dones_len : Nat
  obs_lens : List (String × Nat)
  num_samples : Nat
deriving DecidableEq, Repr

/-- Entry counts of the episode group the writer creates for a record. -/
def epGroupOf (t : Traj) : EpGroup :=
  { actions_len := t.actions.length, states_len := t.states.length,
    rewards_len := t.rewards.length, dones_len := t.dones.length,
    obs_lens := t.obs.map (fun kv => (kv.1, kv.2.length)),
    num_samples := t.actions.length }

/-! ### Driver (`dataset_states_to_obs_multiprocessing`) -/

/-- A process the driver could append to its `processes` list. -/
inductive ProcKind
  | worker (idx : Nat)
  | writer
deriving DecidableEq, Repr

/-- Observable outcome of the driver run. -/
structure DriverOut where
  procs : List ProcKind
  persistQueue : List Int
  outputGroups : List String
deriving DecidableEq, Repr

/-- `dataset_states_to_obs_multiprocessing`, job-control skeleton: build
the demo index work queue `0..num_demos-1`, a zero-initialised
`current_work_array`, and the `processes` list — which stays empty in the
source, since both `multiprocessing.Process` constructions (the worker
pool and the `write_traj_to_file` process) are commented out.  It then
calls `extract_multiple_trajectories` for process number 0 inline (the
inner run raises no escaping exception in this model, so the call is the
`.ok` case) and starts/joins every process in the (empty) list.  The
output archive only gains episode groups if a writer process runs;
`epLen i` abstracts the episode length that would tag index `i`'s
record. -/
def dataset_states_to_obs_multiprocessing (num_demos num_procs : Nat)
    (fails : Nat → Bool) (epLen : Int → Nat) (fuel : Nat) : DriverOut :=
  let s0 : WorkerSt :=
    { workQueue := (List.range num_demos).map Int.ofNat,
      assign := List.replicate num_procs 0,
      outQueue := [], envGen := 1, ind := 0, attempts := [], tick := 0 }
  let procs : List ProcKind := []
  let final := extract_multiple_trajectories 0
      (Except.ok (extract_multiple_trajectories_with_error 0 fails fuel s0))
  let records := final.outQueue.map
      (fun i => WRec.mk ("demo_" ++ toString i) (epLen i))
  let wr : WriterOut :=
    if ProcKind.writer ∈ procs then
      write_traj_to_file num_demos records true
    else
      { groups := [], totalAttr := none, maskCopied := false,
        filterCalls := [], hangs := false }
  { procs := procs, persistQueue := final.outQueue,
    outputGroups := wr.groups }

/-! ### MJCF asset loader (`mjcf_obj.py`) -/

/-- Split a list of characters at every `/` (Python `str.split("/")`,
empty components kept). -/
def splitSlashChars : List Char → List (List Char)
  | [] => [[]]
  | c :: cs =>
      if c = '/' then [] :: splitSlashChars cs
      else
        match splitSlashChars cs with
        | [] => [[c]]
        | p :: ps => (c :: p) :: ps

/-- `old_path.split("/")`. -/
def splitSlash (s : String) : List String :=
  (splitSlashChars s.data).map String.mk

/-- `"/".join(new_path_split)`. -/
def joinSlash : List String → String
  | [] => ""
  | [p] => p
  | p :: ps => p ++ "/" ++ joinSlash ps

/-- The components strictly after the last occurrence of `comp`
(`old_path_split[max(check_lst) + 1 :]`), or `none` when `check_lst` is
empty. -/
def afterLast (comp : String) : List String → Option (List String)
  | [] => none
  | p :: ps =>
      match afterLast comp ps with
      | some suf => some suf
      | none => if p = comp then some ps else none

/-- A `mesh` element of the `asset` section: its `file` and `scale`
attributes (scale components as exact rationals). -/
structure MeshElem where
  file : Option String
  scaleAttr : Option (List ℚ)
deriving DecidableEq, Repr

/-- A `texture` element of the `asset` section. -/
structure TexElem where
  file : Option String
deriving DecidableEq, Repr

/-- A `site` element under `worldbody/body`. -/
structure SiteElem where
  name : String
  pos : List ℚ
deriving DecidableEq, Repr

/-- The parts of an MJCF document the loader touches. -/
structure MJCFModel where
  meshes : List MeshElem
  textures : List TexElem
  sites : List SiteElem
deriving DecidableEq, Repr

/-- The per-element body of the loop in `postprocess_model_xml`:
`path_split` is the robosuite package directory split on `/`, `zooPkgDir`
the robosuite_model_zoo package directory split on `/` (the source drops
its last component).  Both checks are made against the original
`old_path_split`, so when both components occur the second `elem.set`
overwrites the first. -/
def postNewFile (path_split zooPkgDir : List String) (old_path : String) :
    String :=
  let old_path_split := splitSlash old_path
  let f1 :=
    match afterLast "robosuite" old_path_split with
    | some suf => joinSlash (path_split ++ suf)
    | none => old_path
  match afterLast "robosuite-model-zoo-dev" old_path_split with
  | some suf => joinSlash (zooPkgDir.dropLast ++ suf)
  | none => f1

/-- Rewrite of one element's `file` attribute: elements with no `file`
attribute are skipped (`continue`). -/
def postFileAttr (path_split zooPkgDir : List String) :
    Option String → Option String
  | none => none
  | some p => some (postNewFile path_split zooPkgDir p)

/-- `postprocess_model_xml(xml_str)`: rewrite the `file` attribute of
every `mesh` and `texture` element of the `asset` section. -/
def postprocess_model_xml (path_split zooPkgDir : List String)
    (m : MJCFModel) : MJCFModel :=
  { m with
    meshes := m.meshes.map
      (fun e => { e with file := postFileAttr path_split zooPkgDir e.file }),
    textures := m.textures.map
      (fun e => { e with file := postFileAttr path_split zooPkgDir e.file }) }

/-- numpy elementwise multiplication with broadcasting, as used for
`string_to_array(existing_scale) * scale` and `scale * pos`; a shape
mismatch (neither equal lengths nor a singleton) raises in numpy and is
mapped to `[]`. -/
def npMul (a b : List ℚ) : List ℚ :=
  if a.length = b.length then List.zipWith (fun x y => x * y) a b
  else if a.length = 1 then b.map (fun y => a.headD 0 * y)
  else if b.length = 1 then a.map (fun x => x * b.headD 0)
  else []

/-- The `scale` argument of `MJCFObject.__init__`: a float or a 3-vector. -/
inductive ScaleArg
  | flt (q : ℚ)
  | vec (v : List ℚ)
deriving DecidableEq, Repr

/-- Scale normalisation at the top of `MJCFObject.__init__`: a float
becomes `[s, s, s]`; a tuple/list must have length 3 (`assert`). -/
def normScale : ScaleArg → Except String (List ℚ)
  | .flt q => .ok [q, q, q]
  | .vec v => if v.length = 3 then .ok v else .error "AssertionError"

/-- The mesh-scale rewrite: set `scale` to the requested scale, or to the
elementwise (broadcast) product with the pre-existing `scale` attribute
when one exists. -/
def newMeshScale (scale : List ℚ) : Option (List ℚ) → List ℚ
  | none => scale
  | some ex => npMul ex scale

/-- Apply the mesh-scale rewrite to a `mesh` element. -/
def setMeshScale (scale : List ℚ) (e : MeshElem) : MeshElem :=
  { e with scaleAttr := some (newMeshScale scale e.scaleAttr) }

/-- The three collision sites whose `pos` gets scaled. -/
def siteNames : List String :=
  ["bottom_site", "top_site", "horizontal_radius_site"]

/-- Scale the `pos` of the first site named `nm` (`root.find` returns the
first match); `none` when the site is missing, in which case the Python
crashes on `site.get("pos")`. -/
def scaleFirstSite (nm : String) (scale : List ℚ) :
    List SiteElem → Option (List SiteElem)
  | [] => none
  | s :: rest =>
      if s.name = nm then some ({ s with pos := npMul scale s.pos } :: rest)
      else (scaleFirstSite nm scale rest).map (fun l => s :: l)

/-- Apply `scaleFirstSite` for each name in turn (a missing site aborts,
as the Python crash does). -/
def scaleSitesAll (scale : List ℚ) :
    List String → List SiteElem → Option (List SiteElem)
  | [], sites => some sites
  | nm :: nms, sites =>
      (scaleFirstSite nm scale sites).bind (scaleSitesAll scale nms)

/-- The XML-rewriting part of `MJCFObject.__init__`: normalise the
requested scale, rewrite every asset mesh's `scale` attribute, scale the
`pos` of the sites listed in `siteNames`, then postprocess the file paths
of the written document. -/
def MJCFObject_init (path_split zooPkgDir : List String) (sc : ScaleArg)
    (m : MJCFModel) : Except String MJCFModel :=
  match normScale sc with
  | .error e => .error e
  | .ok scale =>
      let m1 := { m with meshes := m.meshes.map (setMeshScale scale) }
      match scaleSitesAll scale siteNames m1.sites with
      | none => .error "AttributeError"
      | some sites' =>
          .ok (postprocess_model_xml path_split zooPkgDir
                { m1 with sites := sites' })

/-- First `pos` carried by a site named `nm` (what `root.find` followed by
`get("pos")` reads). -/
def firstPos (nm : String) (sites : List SiteElem) : Option (List ℚ) :=
  (sites.find? (fun s => s.name = nm)).map SiteElem.pos

/-- Concrete MJCF document used to instantiate the C8 theorem. -/
def mjcfSample : MJCFModel :=
  { meshes := [⟨none, none⟩, ⟨none, some [2, 3, 4]⟩], textures := [],
    sites := [⟨"bottom_site", [1, 1, 1]⟩, ⟨"top_site", [1, 2, 3]⟩,
              ⟨"horizontal_radius_site", [2, 0, 0]⟩] }

/-- What `MJCFObject_init` produces on `mjcfSample` with scale `[5, 6, 7]`. -/
def mjcfSampleOut : MJCFModel :=
  { meshes := [⟨none, some [5, 6, 7]⟩,
               ⟨none, some (npMul [2, 3, 4] [5, 6, 7])⟩],
    textures := [],
    sites := [⟨"bottom_site", npMul [5, 6, 7] [1, 1, 1]⟩,
              ⟨"top_site", npMul [5, 6, 7] [1, 2, 3]⟩,
              ⟨"horizontal_radius_site", npMul [5, 6, 7] [2, 0, 0]⟩] }

/-- The single-mesh document with a `file` path containing both
`robosuite` and `robosuite-model-zoo-dev` as components, used for the C9
counterexample. -/
def bothCompsModel : MJCFModel :=
  { meshes := [⟨some "a/robosuite/b/robosuite-model-zoo-dev/c.stl", none⟩],
    textures := [], sites := [] }

/-- The trajectory record `extract_trajectory` produces on twenty
one-dimensional states with `done_mode = 1` and empty observation
dictionaries; used to instantiate the C10 theorem. -/
def trajSample : Traj :=
  { obs := [], rewards := List.replicate 20 0,
    dones := List.replicate 20 0, actions := List.replicate 20 [0],
    global_actions := none, states := List.replicate 20 [0],
    model_file := "m", ep_meta := "e" }

/-! ### Helper lemmas -/

/-- Iterating claims walks down the queue: `q.length` claims return
exactly the queued indices. -/
theorem claimsRun_eq (p : Nat) : ∀ (q : List Int) (s : WorkerSt),
    s.workQueue = q → (claimsRun p q.length s).1 = q := by
  intro q
  induction q with
  | nil => intro s h; simp [claimsRun]
  | cons i rest ih =>
      intro s h
      have hr : retrieve_new_index p s =
          (i, { s with workQueue := rest, assign := s.assign.set p i }) := by
        simp [retrieve_new_index, h]
      rw [List.length_cons, claimsRun, hr]
      rw [ih _ rfl]

/-- One more claim than the queue holds returns the queued indices
followed by the `-1` failure. -/
theorem claimsRun_exhausts (p : Nat) : ∀ (q : List Int) (s : WorkerSt),
    s.workQueue = q → (claimsRun p (q.length + 1) s).1 = q ++ [-1] := by
  intro q
  induction q with
  | nil =>
      intro s h
      have hr : retrieve_new_index p s = (-1, s) := by
        simp [retrieve_new_index, h]
      rw [List.length_nil, claimsRun, hr]
      simp [claimsRun]
  | cons i rest ih =>
      intro s h
      have hr : retrieve_new_index p s =
          (i, { s with workQueue := rest, assign := s.assign.set p i }) := by
        simp [retrieve_new_index, h]
      rw [List.length_cons, claimsRun, hr]
      rw [ih _ rfl]
      simp

/-- Under `done_mode = 1` the collected done flags over
`range traj_len` are all zero (`t` never reaches `traj_len`). -/
theorem dones_mode1 (success : Nat → Bool) :
    (List.range traj_len).map (doneAt 1 success) =
      List.replicate traj_len 0 := by
  refine List.eq_replicate_iff.2 ⟨by simp, ?_⟩
  intro b hb
  obtain ⟨t, ht, rfl⟩ := List.mem_map.1 hb
  rw [List.mem_range] at ht
  simp [doneAt, Nat.ne_of_lt ht]

/-- `afterLast` returns `none` exactly when the component is absent. -/
theorem afterLast_eq_none_iff (c : String) :
    ∀ l : List String, afterLast c l = none ↔ c ∉ l := by
  intro l
  induction l with
  | nil => simp [afterLast]
  | cons p ps ih =>
      rw [afterLast]
      cases hps : afterLast c ps with
      | some suf =>
          have hc : c ∈ ps := by
            by_contra hn
            have hn2 := ih.2 hn
            rw [hn2] at hps
            exact Option.noConfusion hps
          simp [hc]
      | none =>
          have hc : c ∉ ps := ih.1 hps
          by_cases hp : p = c
          · simp [hp]
          · simp only [List.mem_cons]
            constructor
            · intro hnone
              intro hor
              rcases hor with hcp | hcps
              · rw [hcp] at hp
                simp at hnone
                exact hp rfl
              · exact hc hcps
            · intro hnot
              rw [if_neg hp]

/-- Reading the first `pos` through a cons cell. -/
theorem firstPos_cons (nm : String) (s : SiteElem) (rest : List SiteElem) :
    firstPos nm (s :: rest) =
      if s.name = nm then some s.pos else firstPos nm rest := by
  by_cases h : s.name = nm
  · rw [if_pos h]
    unfold firstPos
    rw [List.find?_cons_of_pos _ (by simp [h])]
    rfl
  · rw [if_neg h]
    unfold firstPos
    rw [List.find?_cons_of_neg _ (by simp [h])]

/-- `scaleFirstSite` multiplies the first `pos` of the targeted name and
leaves every other name's first `pos` unchanged. -/
theorem scaleFirstSite_firstPos (nm : String) (sc : List ℚ) :
    ∀ (sites sites' : List SiteElem),
      scaleFirstSite nm sc sites = some sites' →
      firstPos nm sites' = (firstPos nm sites).map (npMul sc) ∧
      (∀ nm', nm' ≠ nm → firstPos nm' sites' = firstPos nm' sites) := by
  intro sites
  induction sites with
  | nil => intro sites' h; exact Option.noConfusion h
  | cons s rest ih =>
      intro sites' h
      rw [scaleFirstSite] at h
      by_cases hn : s.name = nm
      · rw [if_pos hn] at h
        injection h with h
        subst h
        constructor
        · rw [firstPos_cons, firstPos_cons, if_pos hn, if_pos hn]
          rfl
        · intro nm' hne
          have hne2 : ¬ s.name = nm' := by
            rw [hn]
            intro hc
            exact hne hc.symm
          rw [firstPos_cons, firstPos_cons, if_neg hne2, if_neg hne2]
      · rw [if_neg hn] at h
        cases hrest : scaleFirstSite nm sc rest with
        | none => rw [hrest] at h; exact Option.noConfusion h
        | some rest' =>
            rw [hrest] at h
            injection h with h
            subst h
            obtain ⟨ih1, ih2⟩ := ih rest' hrest
            constructor
            · rw [firstPos_cons, firstPos_cons, if_neg hn, if_neg hn, ih1]
            · intro nm' hne
              rw [firstPos_cons, firstPos_cons]
              by_cases hh : s.name = nm'
              · rw [if_pos hh, if_pos hh]
              · rw [if_neg hh, if_neg hh, ih2 nm' hne]

/-! ### Claim theorems -/

/-- Claim C1.  The claim says the driver
`dataset_states_to_obs_multiprocessing` launches the worker(s) and the
writer so that each of the N selected episodes ends up as a group in the
output file.  In the source both `multiprocessing.Process` constructions
are commented out: the driver's process list stays empty, a single worker
runs inline, `write_traj_to_file` is never invoked, and the output archive
receives no episode group at all.  Evaluated here on an archive with one
selected episode (and a worker that never fails): no process is launched,
no group is written (0 ≠ 1), and — because of the loop-guard defect of
C5 — even the persisted output queue stays empty. -/
theorem c1_driver_launches_nothing :
    (dataset_states_to_obs_multiprocessing 1 1 (fun _ => false)
        (fun _ => 20) 5).procs = [] ∧
    (dataset_states_to_obs_multiprocessing 1 1 (fun _ => false)
        (fun _ => 20) 5).outputGroups = [] ∧
    (dataset_states_to_obs_multiprocessing 1 1 (fun _ => false)
        (fun _ => 20) 5).persistQueue = [] := by decide

/-- Claim C2.  The claim says every episode group has one consistent
transition count across `actions`, `states`, `rewards`, `dones` and every
`obs/*` dataset, equal to the `num_samples` attribute.  Because the source
hardcodes `traj_len = 20` (the `#states.shape[0]` expression is commented
out), a 21-step episode produces a record whose `actions` and `states`
datasets have 21 entries while `rewards`, `dones` and each `obs/*` dataset
have 20, with `num_samples = 21`: the counts are inconsistent. -/
theorem c2_episode_group_lengths_inconsistent :
    ((extract_trajectory ⟨false, false, false⟩ "m" "e"
        (List.replicate 21 [0]) (List.replicate 21 [0])
        (fun _ => 0) (fun _ => false) (fun _ => [("obs_key", 0)]) id
        0).map epGroupOf =
      Except.ok
        { actions_len := 21, states_len := 21, rewards_len := 20,
          dones_len := 20, obs_lens := [("obs_key", 20)],
          num_samples := 21 }) ∧
    ((extract_trajectory ⟨false, false, false⟩ "m" "e"
        (List.replicate 21 [0]) (List.replicate 21 [0])
        (fun _ => 0) (fun _ => false) (fun _ => [("obs_key", 0)]) id
        0).map (fun T => T.rewards.length == T.actions.length) =
      Except.ok false) := ⟨rfl, rfl⟩

/-- Claim C3.  The claim says the writer drains the output queue until
exactly T records have been received and only then copies the "mask"
metadata and produces the size-filtered archives.  In the source the loop
bound `total_samples` is the same variable that is incremented by each
record's sample count, so after receiving the T-th record the loop
condition `num_processed < total_samples` still holds and the writer
blocks forever on the empty queue.  Evaluated at T = 1 with the single
expected record (20 transitions) delivered: the group is created, yet the
writer hangs, the mask is never copied, the `total` attribute is never
written and `filter_dataset_size` is never called. -/
theorem c3_writer_never_stops_at_expected_count :
    write_traj_to_file 1 [⟨"demo_0", 20⟩] true =
      { groups := ["demo_0"], totalAttr := none, maskCopied := false,
        filterCalls := [], hangs := true } := by decide

/-- Claim C4.  `retrieve_new_index` under the lock: on a nonempty queue it
pops the front index, records it in the calling worker's slot of the
assignment array and returns it; on an empty queue it fails by returning
the `-1` EmptyQueue sentinel (the `queue.Empty` exception is caught and
converted to `-1`), leaving the state untouched.  Consequently, for a work
queue initially holding the list `q` of N indices (none of them `-1`),
N + 1 consecutive claims return exactly `q ++ [-1]`: exactly N claims
succeed before one fails. -/
theorem c4_retrieve_new_index_claims (p : Nat) (s : WorkerSt) :
    (s.workQueue = [] → retrieve_new_index p s = (-1, s)) ∧
    (∀ i rest, s.workQueue = i :: rest →
       retrieve_new_index p s =
         (i, { s with workQueue := rest, assign := s.assign.set p i })) ∧
    (claimsRun p (s.workQueue.length + 1) s).1 = s.workQueue ++ [-1] ∧
    ((-1 : Int) ∉ s.workQueue →
       ∀ r ∈ (claimsRun p s.workQueue.length s).1, r ≠ -1) := by
  refine ⟨?_, ?_, ?_, ?_⟩
  · intro h; simp [retrieve_new_index, h]
  · intro i rest h; simp [retrieve_new_index, h]
  · exact claimsRun_exhausts p s.workQueue s rfl
  · intro hnot r hr
    rw [claimsRun_eq p s.workQueue s rfl] at hr
    intro hre; subst hre; exact hnot hr

/-- Witness for C4: on the concrete queue `[5, 7]`, the first claim pops 5
and records it in slot 0, and three claims return `[5, 7, -1]`. -/
theorem c4_retrieve_new_index_claims_witness :
    retrieve_new_index 0 ⟨[5, 7], [0], [], 1, 0, [], 0⟩ =
      (5, ⟨[7], [5], [], 1, 0, [], 0⟩) ∧
    (claimsRun 0 3 ⟨[5, 7], [0], [], 1, 0, [], 0⟩).1 = [5, 7, -1] := by
  have h := c4_retrieve_new_index_claims 0 ⟨[5, 7], [0], [], 1, 0, [], 0⟩
  exact ⟨h.2.1 5 [7] rfl, h.2.2.1⟩

/-- Claim C5.  The claim (the spec's delivery invariant) says every work
item is eventually either completed exactly once or returned to the queue:
no claimed index is silently dropped.  The worker loop guard
`while (not work_queue.empty()) and (ind != -1)` violates it: with a work
queue holding the single index 0 and processing that never fails, the
worker claims 0 (recording it in its assignment slot), the queue becomes
empty, the guard fails, and the worker exits — index 0 is never attempted
(`attempts = []`), no record is enqueued (`outQueue = []`) and the index
is not returned (`workQueue = []`). -/
theorem c5_last_claimed_index_dropped :
    extract_multiple_trajectories_with_error 0 (fun _ => false) 5
        ⟨[0], [0], [], 1, 0, [], 0⟩ =
      ⟨[], [0], [], 1, 0, [], 0⟩ := by decide

/-- Counterexample for claim C6.  The claim says that after an exception
the worker "continues with the next claimed index" and does not re-attempt
the failing one.  With queue `[0, 1]` and only the first attempt failing,
the attempt trace is `[0, 0]`: the iteration after the failure re-attempts
index 0 itself (which then succeeds and is completed, `outQueue = [0]`),
rather than moving on to the next claimed index 1. -/
theorem c6_worker_reattempts_failing_index :
    extract_multiple_trajectories_with_error 0 (fun t => t == 0) 10
        ⟨[0, 1], [0], [], 1, 0, [], 0⟩ =
      ⟨[], [1], [0], 2, 1, [0, 0], 2⟩ ∧
    (extract_multiple_trajectories_with_error 0 (fun t => t == 0) 10
        ⟨[0, 1], [0], [], 1, 0, [], 0⟩).attempts.count 0 = 2 := by decide

/-- Claim C6 as amended.  When an exception occurs inside the
per-trajectory `try` block (loop guard holding), the worker discards its
simulation environment and creates a fresh one (`envGen + 1`), with no
partial-trajectory recovery; but it keeps the failing index as its current
assignment — the queues and `ind` are unchanged — so the next loop
iteration re-attempts that same index (it is abandoned only if the work
queue has become empty by then). -/
theorem c6_failure_recreates_env_and_retries_same_index (p : Nat)
    (fails : Nat → Bool) (s : WorkerSt) (hq : s.workQueue ≠ [])
    (hi : s.ind ≠ -1) (hf : fails s.tick = true) :
    workerStep p fails s =
      some { s with envGen := s.envGen + 1,
                    attempts := s.attempts ++ [s.ind],
                    tick := s.tick + 1 } := by
  simp [workerStep, hq, hi, hf]

/-- Witness for the amended C6: a concrete failing iteration recreates the
environment and keeps index 0 current. -/
theorem c6_failure_recreates_env_and_retries_same_index_witness :
    workerStep 0 (fun _ => true) ⟨[1], [0], [], 1, 0, [], 0⟩ =
      some ⟨[1], [0], [], 2, 0, [0], 1⟩ :=
  c6_failure_recreates_env_and_retries_same_index 0 (fun _ => true)
    ⟨[1], [0], [], 1, 0, [], 0⟩ (by decide) (by decide) rfl

/-- Claim C7.  When an exception escapes the inner per-trajectory
handling, `extract_multiple_trajectories` pushes the calling worker's
current-assignment slot back onto the dispatcher work queue exactly once
(the queue grows by exactly one element, appended at the tail) and the
worker exits; so one failure re-enqueues the index at most once. -/
theorem c7_escaped_error_pushes_back_once (p : Nat)
    (inner : Except WorkerSt WorkerSt) (s : WorkerSt)
    (h : inner = .error s) :
    extract_multiple_trajectories p inner =
      { s with workQueue := s.workQueue ++ [s.assign.getD p 0] } ∧
    (extract_multiple_trajectories p inner).workQueue.length =
      s.workQueue.length + 1 := by
  subst h
  refine ⟨rfl, ?_⟩
  simp [extract_multiple_trajectories]

/-- Witness for C7: a concrete escaped failure of worker 0 whose slot
holds 7 appends exactly `7` to the queue `[1, 2]`. -/
theorem c7_escaped_error_pushes_back_once_witness :
    extract_multiple_trajectories 0
        (Except.error ⟨[1, 2], [7], [], 1, 7, [], 0⟩) =
      ⟨[1, 2, 7], [7], [], 1, 7, [], 0⟩ ∧
    (extract_multiple_trajectories 0
        (Except.error ⟨[1, 2], [7], [], 1, 7, [], 0⟩)).workQueue.length =
      3 := by
  have h := c7_escaped_error_pushes_back_once 0
      (Except.error ⟨[1, 2], [7], [], 1, 7, [], 0⟩)
      ⟨[1, 2], [7], [], 1, 7, [], 0⟩ rfl
  exact ⟨h.1, h.2⟩

/-- Claim C8.  `MJCFObject.__init__` with requested scale `s` (a 3-vector,
as the float case normalises to) rewrites every mesh of the asset section:
the `scale` attribute becomes `s` when the mesh had none, and the
elementwise product of the existing scale and `s` otherwise (for a
length-3 existing scale this is exactly the componentwise product); and
the `pos` of the first site named `bottom_site`, `top_site` and
`horizontal_radius_site` is multiplied elementwise by `s`. -/
theorem c8_mjcf_init_scales_meshes_and_sites (ps zd : List String)
    (s : List ℚ) (m m' : MJCFModel) (hs : s.length = 3)
    (h : MJCFObject_init ps zd (.vec s) m = .ok m') :
    (m'.meshes.map MeshElem.scaleAttr =
       m.meshes.map (fun e => some (newMeshScale s e.scaleAttr))) ∧
    (∀ ex : List ℚ, ex.length = 3 →
       newMeshScale s (some ex) =
         List.zipWith (fun a b => a * b) ex s) ∧
    (∀ nm ∈ siteNames, ∀ p, firstPos nm m.sites = some p →
       firstPos nm m'.sites = some (npMul s p)) := by
  unfold MJCFObject_init at h
  rw [normScale, if_pos hs] at h
  dsimp only at h
  cases hss : scaleSitesAll s siteNames m.sites with
  | none => rw [hss] at h; exact absurd h (by simp)
  | some sites' =>
      rw [hss] at h
      injection h with h
      subst h
      refine ⟨?_, ?_, ?_⟩
      · simp [postprocess_model_xml, setMeshScale, List.map_map]
      · intro ex hex
        simp [newMeshScale, npMul, hex, hs]
      · intro nm hmem p hp
        rw [siteNames] at hss
        simp only [scaleSitesAll, Option.bind_eq_some,
          Option.some.injEq] at hss
        obtain ⟨x1, h1, x2, h2, x3, h3, rfl⟩ := hss
        obtain ⟨f11, f12⟩ :=
          scaleFirstSite_firstPos "bottom_site" s m.sites x1 h1
        obtain ⟨f21, f22⟩ :=
          scaleFirstSite_firstPos "top_site" s x1 x2 h2
        obtain ⟨f31, f32⟩ :=
          scaleFirstSite_firstPos "horizontal_radius_site" s x2 x3 h3
        have hsites : (postprocess_model_xml ps zd
            { m with meshes := m.meshes.map (setMeshScale s),
                     sites := x3 }).sites = x3 := rfl
        rw [hsites]
        rw [siteNames] at hmem
        simp only [List.mem_cons, List.not_mem_nil, or_false] at hmem
        rcases hmem with h | h | h
        · subst h
          rw [f32 _ (by decide), f22 _ (by decide), f11, hp]
          rfl
        · subst h
          rw [f32 _ (by decide), f21, f12 _ (by decide), hp]
          rfl
        · subst h
          rw [f31, f22 _ (by decide), f12 _ (by decide), hp]
          rfl

/-- Witness for C8: on `mjcfSample` with scale `[5, 6, 7]`, the rewritten
`top_site` pos is the elementwise product `[5, 12, 21]`. -/
theorem c8_mjcf_init_scales_meshes_and_sites_witness :
    firstPos "top_site" mjcfSampleOut.sites =
      some (npMul [5, 6, 7] [1, 2, 3]) := by
  have h := c8_mjcf_init_scales_meshes_and_sites ["RS"] ["ZOO", "PKG"]
      [5, 6, 7] mjcfSample mjcfSampleOut (by decide) (by rfl)
  exact h.2.2 "top_site" (by decide) [1, 2, 3] (by decide)

/-- Counterexample for claim C9.  The claim says that for every asset
element whose `file` contains `robosuite` as a path component, the prefix
up to its last occurrence is replaced by the robosuite package directory
with the suffix preserved.  On a path that also contains
`robosuite-model-zoo-dev`, the second rewrite — computed from the
original component split — overwrites the first: the result is the
model-zoo replacement `"ZOO/c.stl"`, not the robosuite replacement the
claim requires. -/
theorem c9_both_components_counterexample :
    (postprocess_model_xml ["RS"] ["ZOO", "PKG"]
        bothCompsModel).meshes.map MeshElem.file = [some "ZOO/c.stl"] ∧
    ¬ ((postprocess_model_xml ["RS"] ["ZOO", "PKG"]
        bothCompsModel).meshes.map MeshElem.file =
      [some (joinSlash (["RS"] ++ ["b", "robosuite-model-zoo-dev",
                                   "c.stl"]))]) := by decide

/-- Claim C9 as amended.  `postprocess_model_xml` maps the `file`
rewrite over every mesh and texture of the asset section; elements with no
`file` attribute are unchanged; a `file` containing neither component is
unchanged; a `file` containing `robosuite` but not
`robosuite-model-zoo-dev` as a component has the prefix up to and
including the last `robosuite` replaced by the robosuite package
directory, the suffix preserved; and a `file` containing
`robosuite-model-zoo-dev` has the prefix up to and including its last
occurrence replaced by the parent of the model-zoo package directory
(computed from the original component split, overriding the robosuite
rewrite when both components occur). -/
theorem c9_postprocess_path_rewrite (ps zd : List String) (m : MJCFModel) :
    ((postprocess_model_xml ps zd m).meshes =
       m.meshes.map
         (fun e => { e with file := postFileAttr ps zd e.file }) ∧
     (postprocess_model_xml ps zd m).textures =
       m.textures.map
         (fun e => { e with file := postFileAttr ps zd e.file })) ∧
    postFileAttr ps zd none = none ∧
    (∀ old : String, "robosuite" ∉ splitSlash old →
       "robosuite-model-zoo-dev" ∉ splitSlash old →
       postFileAttr ps zd (some old) = some old) ∧
    (∀ old suf, afterLast "robosuite" (splitSlash old) = some suf →
       afterLast "robosuite-model-zoo-dev" (splitSlash old) = none →
       postFileAttr ps zd (some old) = some (joinSlash (ps ++ suf))) ∧
    (∀ old suf,
       afterLast "robosuite-model-zoo-dev" (splitSlash old) = some suf →
       postFileAttr ps zd (some old) =
         some (joinSlash (zd.dropLast ++ suf))) := by
  refine ⟨⟨rfl, rfl⟩, rfl, ?_, ?_, ?_⟩
  · intro old h1 h2
    have e1 := (afterLast_eq_none_iff "robosuite" (splitSlash old)).2 h1
    have e2 := (afterLast_eq_none_iff "robosuite-model-zoo-dev"
                  (splitSlash old)).2 h2
    simp [postFileAttr, postNewFile, e1, e2]
  · intro old suf h1 h2
    simp [postFileAttr, postNewFile, h1, h2]
  · intro old suf h1
    simp [postFileAttr, postNewFile, h1]

/-- Witness for the amended C9: a robosuite-only path gets its prefix
replaced and its suffix preserved. -/
theorem c9_postprocess_path_rewrite_witness :
    postFileAttr ["RS"] ["ZOO", "PKG"] (some "x/robosuite/y.stl") =
      some (joinSlash (["RS"] ++ ["y.stl"])) := by
  have h := c9_postprocess_path_rewrite ["RS"] ["ZOO", "PKG"]
      { meshes := [], textures := [], sites := [] }
  exact h.2.2.2.1 "x/robosuite/y.stl" ["y.stl"] (by decide) (by decide)

/-- Claim C10.  In `extract_trajectory` with `done_mode = 1`, every entry
of the produced `dones` array equals 0: the end-of-trajectory test
compares the loop variable `t` against `traj_len`, while `t` only ranges
over `0 .. traj_len - 1`, so the done flag is never set on any collected
transition. -/
theorem c10_done_mode1_all_zero (args : ExtractArgs) (mf em : String)
    (states actions : List (List ℚ)) (reward : Nat → ℚ)
    (success : Nat → Bool) (obsAt : Nat → List (String × ℚ))
    (rowTf : List ℚ → List ℚ) (T : Traj)
    (h : extract_trajectory args mf em states actions reward success obsAt
          rowTf 1 = .ok T) :
    T.dones = List.replicate traj_len 0 := by
  unfold extract_trajectory at h
  split_ifs at h with h1 h2 hg
  all_goals (injection h with h; subst h; exact dones_mode1 success)

/-- Witness for C10: a concrete 20-step extraction with `done_mode = 1`
yields the all-zero dones array. -/
theorem c10_done_mode1_all_zero_witness :
    trajSample.dones = List.replicate traj_len 0 :=
  c10_done_mode1_all_zero ⟨false, false, false⟩ "m" "e"
    (List.replicate 20 [0]) (List.replicate 20 [0]) (fun _ => 0)
    (fun _ => false) (fun _ => []) id trajSample (by rfl)
